import Mathlib

/-!
Shallow embedding of the cart/catalog module of the "His Children" site
(`src/js/cart.js`, duplicated with inline data in `src/unnamed/part_000`).

Modelling conventions:
* JavaScript numbers (prices, money amounts) are embedded as `ℚ`;
  quantities are `Int` (callers may pass zero or negative values).
* A product's `salePrice` is `Option ℚ`: `none` embeds JavaScript `null`.
  JavaScript truthiness of a numeric field (`product.salePrice || ...`,
  `product.salePrice && ...`) is: truthy iff present and nonzero.
* `localStorage` is a record with one slot per key used by the module:
  the cart slot (key `hischildren_cart`) and the order slot
  (key `hischildren_last_order`).  The cart slot stores the JSON document
  produced by `JSON.stringify`, embedded as an explicit `Json` value;
  `JSON.parse` of a stored document is embedded by a structural decoder.
* DOM side effects (`updateCartCount`, `console.error`) have no
  observable effect on the store's state and are dropped.
-/

/-- A catalog product (`Products[id]` entries in `cart.js`). -/
structure Product where
  id : String
  name : String
  price : ℚ
  salePrice : Option ℚ
  image : String
  collection : String
  deriving Repr, DecidableEq, Inhabited

/-- A cart line-item, exactly the object pushed by `Cart.addItem`. -/
structure Item where
  id : String
  name : String
  price : ℚ
  originalPrice : ℚ
  salePrice : Option ℚ
  image : String
  collection : String
  quantity : Int
  deriving Repr, DecidableEq, Inhabited

/-- JavaScript truthiness of a nullable numeric field:
truthy iff present and nonzero. -/
def numTruthy : Option ℚ → Bool
  | none => false
  | some v => v != 0

namespace Cart

/-- `product.salePrice || product.price` from `Cart.addItem` (cart.js:46):
the sale price whenever it is truthy (non-null and nonzero), else the
base price.  Note this does NOT check `salePrice < price`. -/
def fallbackPrice (p : Product) : ℚ :=
  match p.salePrice with
  | none => p.price
  | some v => if v = 0 then p.price else v

/-- The line-item object pushed by `Cart.addItem` for a product not yet in
the cart (cart.js:51-60). -/
def newItem (p : Product) (quantity : Int) : Item :=
  { id := p.id
    name := p.name
    price := fallbackPrice p
    originalPrice := p.price
    salePrice := p.salePrice
    image := p.image
    collection := p.collection
    quantity := quantity }

/-- `items[existingIndex].quantity += quantity`: increment the quantity of
the first item matching `pid` (the one found by `findIndex`), leaving
everything else unchanged. -/
def bumpFirst (pid : String) (q : Int) : List Item → List Item
  | [] => []
  | it :: rest =>
    if it.id = pid then { it with quantity := it.quantity + q } :: rest
    else it :: bumpFirst pid q rest

/-- `items.splice(index, 1)` where `index = items.findIndex(...)`: remove
the first item matching `pid`. -/
def removeFirst (pid : String) : List Item → List Item
  | [] => []
  | it :: rest => if it.id = pid then rest else it :: removeFirst pid rest

/-- `items[index].quantity = quantity` where `index = items.findIndex(...)`:
set the quantity of the first item matching `pid`. -/
def setFirst (pid : String) (q : Int) : List Item → List Item
  | [] => []
  | it :: rest =>
    if it.id = pid then { it with quantity := q } :: rest
    else it :: setFirst pid q rest

/-- Whether some line-item matches the product id
(`items.findIndex(...) > -1`). -/
def hasItem (items : List Item) (pid : String) : Bool :=
  items.any (fun it => it.id = pid)

/-- `Cart.addItem` (cart.js:42-65), at the level of the decoded item list:
if a line-item for `p.id` exists, increment its quantity in place;
otherwise append a fresh snapshot line-item. -/
def addItem (items : List Item) (p : Product) (q : Int) : List Item :=
  if hasItem items p.id then bumpFirst p.id q items
  else items ++ [newItem p q]

/-- `Cart.updateQuantity` (cart.js:72-86), at the level of the item list:
no-op when the id is absent; removal when `q ≤ 0`; absolute set
otherwise. -/
def updateQuantity (items : List Item) (pid : String) (q : Int) : List Item :=
  if hasItem items pid then
    if q ≤ 0 then removeFirst pid items else setFirst pid q items
  else items

/-- `Cart.removeItem` (cart.js:92-96):
`items.filter(item => item.id !== productId)`. -/
def removeItem (items : List Item) (pid : String) : List Item :=
  items.filter (fun it => it.id ≠ pid)

/-- The record returned by `Cart.getTotals`. -/
structure Totals where
  subtotal : ℚ
  shipping : ℚ
  total : ℚ
  itemCount : Int
  deriving Repr, DecidableEq

/-- `Cart.getTotals` (cart.js:102-114), at the level of the item list. -/
def getTotals (items : List Item) : Totals :=
  let subtotal := items.foldl (fun sum it => sum + it.price * (it.quantity : ℚ)) 0
  let shipping : ℚ := if 0 < subtotal then (if 75 ≤ subtotal then 0 else 895/100) else 0
  { subtotal := subtotal
    shipping := shipping
    total := subtotal + shipping
    itemCount := items.foldl (fun sum it => sum + it.quantity) 0 }

end Cart

/-! ### JSON documents and the serialized cart

`Cart.saveItems` stores `JSON.stringify(items)` and `Cart.getItems` reads it
back with `JSON.parse`.  We embed the stored text as the JSON document it
denotes, and `JSON.parse`/field access as a structural decoder. -/

/-- A JSON document (the image of `JSON.stringify` on the module's data). -/
inductive Json where
  | null : Json
  | num : ℚ → Json
  | str : String → Json
  | arr : List Json → Json
  | obj : List (String × Json) → Json
  deriving Inhabited

namespace Json

/-- Serialization of a nullable numeric field (`salePrice`). -/
def ofOptNum : Option ℚ → Json
  | none => .null
  | some v => .num v

/-- Decode a nullable numeric field. -/
def toOptNum : Json → Option (Option ℚ)
  | .null => some none
  | .num v => some (some v)
  | _ => none

/-- Decode a numeric field. -/
def toNum : Json → Option ℚ
  | .num v => some v
  | _ => none

/-- Decode an integer field (a JSON number with no fractional part). -/
def toInt : Json → Option Int
  | .num v => if v.den = 1 then some v.num else none
  | _ => none

/-- Decode a string field. -/
def toStr : Json → Option String
  | .str s => some s
  | _ => none

/-- Object field lookup. -/
def field (j : Json) (k : String) : Option Json :=
  match j with
  | .obj fs => (fs.find? (fun f => f.1 = k)).map (fun f => f.2)
  | _ => none

end Json

/-- `JSON.stringify` of one line-item object. -/
def encodeItem (it : Item) : Json :=
  .obj [ ("id", .str it.id)
       , ("name", .str it.name)
       , ("price", .num it.price)
       , ("originalPrice", .num it.originalPrice)
       , ("salePrice", Json.ofOptNum it.salePrice)
       , ("image", .str it.image)
       , ("collection", .str it.collection)
       , ("quantity", .num (it.quantity : ℚ)) ]

/-- `JSON.stringify` of the item list. -/
def encodeItems (items : List Item) : Json :=
  .arr (items.map encodeItem)

/-- Structural read-back of one line-item from a JSON document. -/
def decodeItem (j : Json) : Option Item := do
  let id ← (j.field "id").bind Json.toStr
  let name ← (j.field "name").bind Json.toStr
  let price ← (j.field "price").bind Json.toNum
  let originalPrice ← (j.field "originalPrice").bind Json.toNum
  let salePrice ← (j.field "salePrice").bind Json.toOptNum
  let image ← (j.field "image").bind Json.toStr
  let collection ← (j.field "collection").bind Json.toStr
  let quantity ← (j.field "quantity").bind Json.toInt
  pure { id := id, name := name, price := price, originalPrice := originalPrice,
         salePrice := salePrice, image := image, collection := collection,
         quantity := quantity }

/-- Structural read-back of the item list. -/
def decodeItems (j : Json) : Option (List Item) :=
  match j with
  | .arr js => js.mapM decodeItem
  | _ => none

/-- The Order Snapshot object built by `Cart.saveOrder` (cart.js:132-137).
`orderNumber` and `date` come from the clock (`Date.now()`,
`new Date().toISOString()`) and are passed in as parameters. -/
structure Order where
  orderNumber : String
  items : List Item
  totals : Cart.Totals
  date : String
  deriving Repr, DecidableEq

/-- The two independent `localStorage` slots used by the module:
`hischildren_cart` (serialized cart) and `hischildren_last_order`
(serialized Order Snapshot).  `none` means the key is absent. -/
structure Storage where
  cart : Option Json
  lastOrder : Option Order

namespace Cart

/-- `Cart.getItems` (cart.js:14-22): parse the stored document, or return
the empty list when the slot is absent or unreadable. -/
def getItems (s : Storage) : List Item :=
  match s.cart with
  | none => []
  | some j => (decodeItems j).getD []

/-- `Cart.saveItems` (cart.js:28-35): overwrite the cart slot with the
serialized list.  (`updateCartCount` only touches the DOM.) -/
def saveItems (s : Storage) (items : List Item) : Storage :=
  { s with cart := some (encodeItems items) }

/-- Storage-level `Cart.addItem`: read, mutate, persist. -/
def addItemS (s : Storage) (p : Product) (q : Int) : Storage :=
  saveItems s (addItem (getItems s) p q)

/-- Storage-level `Cart.updateQuantity`.  The source persists only when the
id was found; when it was not, the list is unchanged, so persisting the
unchanged list is written here unconditionally for uniformity only at the
list level — at the storage level we keep the source's conditional. -/
def updateQuantityS (s : Storage) (pid : String) (q : Int) : Storage :=
  if hasItem (getItems s) pid then
    saveItems s (updateQuantity (getItems s) pid q)
  else s

/-- Storage-level `Cart.removeItem`. -/
def removeItemS (s : Storage) (pid : String) : Storage :=
  saveItems s (removeItem (getItems s) pid)

/-- `Cart.clear` (cart.js:119-122): `localStorage.removeItem(STORAGE_KEY)`. -/
def clear (s : Storage) : Storage :=
  { s with cart := none }

/-- `Cart.saveOrder` (cart.js:127-146): snapshot current items and totals
into the order slot; the cart slot is not written.  Returns the new
storage and the order object the function returns. -/
def saveOrder (s : Storage) (orderNumber date : String) : Storage × Order :=
  let order : Order :=
    { orderNumber := orderNumber
      items := getItems s
      totals := getTotals (getItems s)
      date := date }
  ({ s with lastOrder := some order }, order)

/-- `Cart.getLastOrder` (cart.js:151-159). -/
def getLastOrder (s : Storage) : Option Order :=
  s.lastOrder

/-- `Cart.formatPrice` (cart.js:178-180): `'$' + price.toFixed(2)`.
JavaScript's `Number.prototype.toFixed` is passed in as a parameter
`toFixed2` (its exact digit string is irrelevant to the claims). -/
def formatPrice (toFixed2 : ℚ → String) (price : ℚ) : String :=
  "$" ++ toFixed2 price

end Cart

/-! ### Catalog store (`Products` / `Collections` lookup helpers) -/

/-- A catalog collection (`Collections[id]` entries): its `products` field
is the ordered list of member product ids. -/
structure Collection where
  id : String
  name : String
  description : String
  image : String
  products : List String
  deriving Repr, DecidableEq, Inhabited

/-- The in-memory catalog: the `Products` and `Collections` objects,
embedded as ordered key-value lists (JavaScript object property order). -/
structure Catalog where
  products : List (String × Product)
  collections : List (String × Collection)
  deriving Repr, DecidableEq, Inhabited

/-- `getProduct` (cart.js:265-267): `Products[id] || null`. -/
def getProduct (c : Catalog) (id : String) : Option Product :=
  (c.products.find? (fun e => e.1 = id)).map (fun e => e.2)

/-- `getCollection` (cart.js:274-276): `Collections[id] || null`. -/
def getCollection (c : Catalog) (id : String) : Option Collection :=
  (c.collections.find? (fun e => e.1 = id)).map (fun e => e.2)

/-- `getCollectionProducts` (cart.js:283-287):
`collection.products.map(id => Products[id]).filter(Boolean)`, and `[]`
for an unknown collection. -/
def getCollectionProducts (c : Catalog) (collectionId : String) : List Product :=
  match getCollection c collectionId with
  | none => []
  | some col => (col.products.map (fun id => getProduct c id)).reduceOption

/-- `calculatePercentOff` (cart.js:311-314).  `salePrice` may be `null`;
`!salePrice` is JavaScript falsiness (null or zero).  `Math.round` is
round-half-up, which is Mathlib's `round` on `ℚ`. -/
def calculatePercentOff (originalPrice : ℚ) (salePrice : Option ℚ) : Int :=
  if !numTruthy salePrice ∨ originalPrice ≤ salePrice.getD 0 then 0
  else round (((originalPrice - salePrice.getD 0) / originalPrice) * 100)

/-- `isOnSale` (cart.js:321-323):
`product.salePrice && product.salePrice < product.price`, coerced to the
truth value of the returned JavaScript expression. -/
def isOnSale (p : Product) : Bool :=
  match p.salePrice with
  | none => false
  | some v => v != 0 && decide (v < p.price)

/-- `getEffectivePrice` (cart.js:330-332):
`isOnSale(product) ? product.salePrice : product.price`. -/
def getEffectivePrice (p : Product) : ℚ :=
  if isOnSale p then (p.salePrice.getD 0) else p.price

/-- `renderPriceHTML` (cart.js:340-353), with JavaScript's number-to-string
conversion passed in as `numToStr` and template-literal whitespace
dropped. -/
def renderPriceHTML (numToStr : ℚ → String) (p : Product) (showSaleLabel : Bool) : String :=
  if isOnSale p then
    "<span class=\"price-wrapper price-on-sale\">"
      ++ (if showSaleLabel then "<span class=\"sale-badge\">Sale</span>" else "")
      ++ "<span class=\"price-original\">$" ++ numToStr p.price ++ "</span>"
      ++ "<span class=\"price-sale\">$" ++ numToStr (p.salePrice.getD 0) ++ "</span>"
      ++ "<span class=\"price-percent-off\">"
      ++ toString (calculatePercentOff p.price p.salePrice) ++ "% off</span>"
      ++ "</span>"
  else
    "<span class=\"price-wrapper\">$" ++ numToStr p.price ++ "</span>"

/-- `renderProductCard` (cart.js:361-381), with the same conventions as
`renderPriceHTML`. -/
def renderProductCard (numToStr : ℚ → String) (p : Product) (basePath : String) : String :=
  let priceHTML :=
    if isOnSale p then
      "<p class=\"product-card-price price-on-sale\">"
        ++ "<span class=\"price-original\">$" ++ numToStr p.price ++ "</span>"
        ++ "<span class=\"price-sale\">$" ++ numToStr (p.salePrice.getD 0) ++ "</span>"
        ++ "<span class=\"sale-badge\">Sale</span></p>"
    else
      "<p class=\"product-card-price\">$" ++ numToStr p.price ++ "</p>"
  "<a href=\"" ++ basePath ++ "products/" ++ p.id ++ ".html\" class=\"product-card"
    ++ (if isOnSale p then " product-on-sale" else "") ++ "\">"
    ++ "<div class=\"product-card-image\">"
    ++ "<img src=\"" ++ basePath ++ p.image ++ "\" alt=\"" ++ p.name ++ "\">"
    ++ "</div><div class=\"product-card-info\">"
    ++ "<h3 class=\"product-card-name\">" ++ p.name ++ "</h3>"
    ++ priceHTML ++ "</div></a>"

/-! ### The duplicate module (`src/unnamed/part_000`)

`src/unnamed/part_000` carries a second copy of the same `Cart` object and
the same helper functions, with the catalog data inlined instead of
fetched.  The copy is embedded separately here (namespace `Part000`) so
that the behavioural equivalence of the two copies is a theorem about two
independent translations, not a definition. -/

namespace Part000

/-- `product.salePrice || product.price` from `addItem` (part_000:46). -/
def fallbackPrice (p : Product) : ℚ :=
  match p.salePrice with
  | none => p.price
  | some v => if v = 0 then p.price else v

/-- The line-item pushed by `addItem` (part_000:51-60). -/
def newItem (p : Product) (quantity : Int) : Item :=
  { id := p.id
    name := p.name
    price := fallbackPrice p
    originalPrice := p.price
    salePrice := p.salePrice
    image := p.image
    collection := p.collection
    quantity := quantity }

/-- `items[existingIndex].quantity += quantity` (part_000:49). -/
def bumpFirst (pid : String) (q : Int) : List Item → List Item
  | [] => []
  | it :: rest =>
    if it.id = pid then { it with quantity := it.quantity + q } :: rest
    else it :: bumpFirst pid q rest

/-- `items.splice(index, 1)` (part_000:78). -/
def removeFirst (pid : String) : List Item → List Item
  | [] => []
  | it :: rest => if it.id = pid then rest else it :: removeFirst pid rest

/-- `items[index].quantity = quantity` (part_000:80). -/
def setFirst (pid : String) (q : Int) : List Item → List Item
  | [] => []
  | it :: rest =>
    if it.id = pid then { it with quantity := q } :: rest
    else it :: setFirst pid q rest

/-- `items.findIndex(...) > -1` (part_000:44,48). -/
def hasItem (items : List Item) (pid : String) : Bool :=
  items.any (fun it => it.id = pid)

/-- `Cart.addItem` (part_000:42-65) at the item-list level. -/
def addItem (items : List Item) (p : Product) (q : Int) : List Item :=
  if hasItem items p.id then bumpFirst p.id q items
  else items ++ [newItem p q]

/-- `Cart.updateQuantity` (part_000:72-86) at the item-list level. -/
def updateQuantity (items : List Item) (pid : String) (q : Int) : List Item :=
  if hasItem items pid then
    if q ≤ 0 then removeFirst pid items else setFirst pid q items
  else items

/-- `Cart.removeItem` (part_000:92-96). -/
def removeItem (items : List Item) (pid : String) : List Item :=
  items.filter (fun it => it.id ≠ pid)

/-- `Cart.getTotals` (part_000:102-114). -/
def getTotals (items : List Item) : Cart.Totals :=
  let subtotal := items.foldl (fun sum it => sum + it.price * (it.quantity : ℚ)) 0
  let shipping : ℚ := if 0 < subtotal then (if 75 ≤ subtotal then 0 else 895/100) else 0
  { subtotal := subtotal
    shipping := shipping
    total := subtotal + shipping
    itemCount := items.foldl (fun sum it => sum + it.quantity) 0 }

/-- `Cart.getItems` (part_000:14-22). -/
def getItems (s : Storage) : List Item :=
  match s.cart with
  | none => []
  | some j => (decodeItems j).getD []

/-- `Cart.saveItems` (part_000:28-35). -/
def saveItems (s : Storage) (items : List Item) : Storage :=
  { s with cart := some (encodeItems items) }

/-- Storage-level `Cart.addItem` (part_000:42-65). -/
def addItemS (s : Storage) (p : Product) (q : Int) : Storage :=
  saveItems s (addItem (getItems s) p q)

/-- Storage-level `Cart.updateQuantity` (part_000:72-86). -/
def updateQuantityS (s : Storage) (pid : String) (q : Int) : Storage :=
  if hasItem (getItems s) pid then
    saveItems s (updateQuantity (getItems s) pid q)
  else s

/-- Storage-level `Cart.removeItem` (part_000:92-96). -/
def removeItemS (s : Storage) (pid : String) : Storage :=
  saveItems s (removeItem (getItems s) pid)

/-- `Cart.clear` (part_000:119-122). -/
def clear (s : Storage) : Storage :=
  { s with cart := none }

/-- `Cart.saveOrder` (part_000:127-146). -/
def saveOrder (s : Storage) (orderNumber date : String) : Storage × Order :=
  let order : Order :=
    { orderNumber := orderNumber
      items := getItems s
      totals := getTotals (getItems s)
      date := date }
  ({ s with lastOrder := some order }, order)

/-- `Cart.getLastOrder` (part_000:151-159). -/
def getLastOrder (s : Storage) : Option Order :=
  s.lastOrder

/-- `Cart.formatPrice` (part_000:178-180). -/
def formatPrice (toFixed2 : ℚ → String) (price : ℚ) : String :=
  "$" ++ toFixed2 price

/-- `getProduct` (part_000:479-481). -/
def getProduct (c : Catalog) (id : String) : Option Product :=
  (c.products.find? (fun e => e.1 = id)).map (fun e => e.2)

/-- `getCollection` (part_000:488-490). -/
def getCollection (c : Catalog) (id : String) : Option Collection :=
  (c.collections.find? (fun e => e.1 = id)).map (fun e => e.2)

/-- `getCollectionProducts` (part_000:497-501). -/
def getCollectionProducts (c : Catalog) (collectionId : String) : List Product :=
  match getCollection c collectionId with
  | none => []
  | some col => (col.products.map (fun id => getProduct c id)).reduceOption

/-- `calculatePercentOff` (part_000:525-528). -/
def calculatePercentOff (originalPrice : ℚ) (salePrice : Option ℚ) : Int :=
  if !numTruthy salePrice ∨ originalPrice ≤ salePrice.getD 0 then 0
  else round (((originalPrice - salePrice.getD 0) / originalPrice) * 100)

/-- `isOnSale` (part_000:535-537). -/
def isOnSale (p : Product) : Bool :=
  match p.salePrice with
  | none => false
  | some v => v != 0 && decide (v < p.price)

/-- `getEffectivePrice` (part_000:544-546). -/
def getEffectivePrice (p : Product) : ℚ :=
  if isOnSale p then (p.salePrice.getD 0) else p.price

/-- `renderPriceHTML` (part_000:554-567). -/
def renderPriceHTML (numToStr : ℚ → String) (p : Product) (showSaleLabel : Bool) : String :=
  if isOnSale p then
    "<span class=\"price-wrapper price-on-sale\">"
      ++ (if showSaleLabel then "<span class=\"sale-badge\">Sale</span>" else "")
      ++ "<span class=\"price-original\">$" ++ numToStr p.price ++ "</span>"
      ++ "<span class=\"price-sale\">$" ++ numToStr (p.salePrice.getD 0) ++ "</span>"
      ++ "<span class=\"price-percent-off\">"
      ++ toString (calculatePercentOff p.price p.salePrice) ++ "% off</span>"
      ++ "</span>"
  else
    "<span class=\"price-wrapper\">$" ++ numToStr p.price ++ "</span>"

/-- `renderProductCard` (part_000:575-595). -/
def renderProductCard (numToStr : ℚ → String) (p : Product) (basePath : String) : String :=
  let priceHTML :=
    if isOnSale p then
      "<p class=\"product-card-price price-on-sale\">"
        ++ "<span class=\"price-original\">$" ++ numToStr p.price ++ "</span>"
        ++ "<span class=\"price-sale\">$" ++ numToStr (p.salePrice.getD 0) ++ "</span>"
        ++ "<span class=\"sale-badge\">Sale</span></p>"
    else
      "<p class=\"product-card-price\">$" ++ numToStr p.price ++ "</p>"
  "<a href=\"" ++ basePath ++ "products/" ++ p.id ++ ".html\" class=\"product-card"
    ++ (if isOnSale p then " product-on-sale" else "") ++ "\">"
    ++ "<div class=\"product-card-image\">"
    ++ "<img src=\"" ++ basePath ++ p.image ++ "\" alt=\"" ++ p.name ++ "\">"
    ++ "</div><div class=\"product-card-info\">"
    ++ "<h3 class=\"product-card-name\">" ++ p.name ++ "</h3>"
    ++ priceHTML ++ "</div></a>"

end Part000

/-! ### Specification-side definitions and demo data -/

/-- The spec's effective price ("the sale price if the product is on sale
(salePrice set, > 0, and strictly less than price), else the base
price"), written from the spec's words for comparison with the
snapshot price actually taken by `Cart.addItem`. -/
def effectivePriceSpec (p : Product) : ℚ :=
  match p.salePrice with
  | none => p.price
  | some v => if 0 < v ∧ v < p.price then v else p.price

/-- The repo's `heritage-block-set` product (not on sale). -/
def prodHeritage : Product :=
  { id := "heritage-block-set"
    name := "The Heritage Block Set"
    price := 68
    salePrice := none
    image := "images/heritage-block-set.jpg"
    collection := "Heirloom Wooden" }

/-- The repo's `woodland-animal-family` product (on sale: 45 → 36). -/
def prodWoodland : Product :=
  { id := "woodland-animal-family"
    name := "Woodland Animal Family"
    price := 45
    salePrice := some 36
    image := "images/woodland-animal-family.jpg"
    collection := "Heirloom Wooden" }

/-- A product violating the data-model invariant: `salePrice` set but
greater than the base price (the spec's defensive case). -/
def prodBadSale : Product :=
  { id := "defensive-sale"
    name := "Defensive Sale"
    price := 68
    salePrice := some 100
    image := "images/defensive-sale.jpg"
    collection := "Test" }

/-- A product with `salePrice` set to zero (the spec's other edge case). -/
def prodZeroSale : Product :=
  { id := "zero-sale"
    name := "Zero Sale"
    price := 68
    salePrice := some 0
    image := "images/zero-sale.jpg"
    collection := "Test" }

/-- A product whose `salePrice` equals its base price. -/
def prodEqSale : Product :=
  { id := "eq-sale"
    name := "Eq Sale"
    price := 68
    salePrice := some 68
    image := "images/eq-sale.jpg"
    collection := "Test" }

/-- A line-item with a given unit price and quantity, for the totals
examples. -/
def demoItem (price : ℚ) (quantity : Int) : Item :=
  { id := "demo"
    name := "Demo"
    price := price
    originalPrice := price
    salePrice := none
    image := "images/demo.jpg"
    collection := "Demo"
    quantity := quantity }

/-- A demo collection referencing a dangling product id between two valid
ones. -/
def demoHeirloom : Collection :=
  { id := "heirloom-wooden"
    name := "Heirloom Wooden"
    description := "Timeless wooden toys."
    image := "images/collection-heirloom-wooden.jpg"
    products := ["heritage-block-set", "deleted-product", "woodland-animal-family"] }

/-- A demo catalog holding the two repo products and `demoHeirloom`. -/
def demoCatalog : Catalog :=
  { products :=
      [ ("heritage-block-set", prodHeritage)
      , ("woodland-animal-family", prodWoodland) ]
    collections := [ ("heirloom-wooden", demoHeirloom) ] }

/-- Cart states reachable from the empty cart by any sequence of the four
mutators, with arbitrary (also zero or negative) quantity arguments. -/
inductive Reachable : List Item → Prop where
  | empty : Reachable []
  | add (p : Product) (q : Int) {s : List Item} :
      Reachable s → Reachable (Cart.addItem s p q)
  | update (pid : String) (q : Int) {s : List Item} :
      Reachable s → Reachable (Cart.updateQuantity s pid q)
  | remove (pid : String) {s : List Item} :
      Reachable s → Reachable (Cart.removeItem s pid)
  | clear {s : List Item} : Reachable s → Reachable []

/-- Cart states reachable when every `addItem` call passes a positive
quantity (`updateQuantity` may still receive any quantity). -/
inductive ReachablePos : List Item → Prop where
  | empty : ReachablePos []
  | add (p : Product) (q : Int) {s : List Item} :
      ReachablePos s → 0 < q → ReachablePos (Cart.addItem s p q)
  | update (pid : String) (q : Int) {s : List Item} :
      ReachablePos s → ReachablePos (Cart.updateQuantity s pid q)
  | remove (pid : String) {s : List Item} :
      ReachablePos s → ReachablePos (Cart.removeItem s pid)
  | clear {s : List Item} : ReachablePos s → ReachablePos []

/-- A cart mutation, for stating that cart operations never touch the
order slot. -/
inductive CartOp where
  | add (p : Product) (q : Int)
  | update (pid : String) (q : Int)
  | remove (pid : String)
  | save (items : List Item)
  | clearCart

/-- Run one cart mutation against the storage. -/
def CartOp.apply : CartOp → Storage → Storage
  | .add p q, s => Cart.addItemS s p q
  | .update pid q, s => Cart.updateQuantityS s pid q
  | .remove pid, s => Cart.removeItemS s pid
  | .save items, s => Cart.saveItems s items
  | .clearCart, s => Cart.clear s

/-- Run a sequence of cart mutations, oldest first. -/
def applyOps (ops : List CartOp) (s : Storage) : Storage :=
  ops.foldl (fun st op => op.apply st) s

/-! ### Helper lemmas -/

namespace Cart

theorem foldl_add_eq {M : Type} [AddCommMonoid M] (f : Item → M) (l : List Item) :
    ∀ a : M, l.foldl (fun sum it => sum + f it) a = a + (l.map f).sum := by
  induction l with
  | nil => intro a; simp
  | cons it rest ih => intro a; simp [ih, add_assoc]

theorem hasItem_eq_false {l : List Item} {pid : String} :
    hasItem l pid = false ↔ ∀ it ∈ l, it.id ≠ pid := by
  simp [hasItem]

theorem hasItem_eq_true {l : List Item} {pid : String} :
    hasItem l pid = true ↔ ∃ it ∈ l, it.id = pid := by
  simp [hasItem]

theorem bumpFirst_map_id (pid : String) (q : Int) (l : List Item) :
    (bumpFirst pid q l).map Item.id = l.map Item.id := by
  induction l with
  | nil => rfl
  | cons it rest ih =>
    by_cases h : it.id = pid <;> simp [bumpFirst, h, ih]

theorem setFirst_map_id (pid : String) (q : Int) (l : List Item) :
    (setFirst pid q l).map Item.id = l.map Item.id := by
  induction l with
  | nil => rfl
  | cons it rest ih =>
    by_cases h : it.id = pid <;> simp [setFirst, h, ih]

theorem removeFirst_sublist (pid : String) (l : List Item) :
    (removeFirst pid l).Sublist l := by
  induction l with
  | nil => simp [removeFirst]
  | cons it rest ih =>
    by_cases h : it.id = pid
    · simp only [removeFirst, if_pos h]
      exact List.Sublist.cons it (List.Sublist.refl rest)
    · simp only [removeFirst, if_neg h]
      exact List.Sublist.cons₂ it ih

theorem mem_removeFirst {pid : String} {x : Item} {l : List Item} :
    x ∈ removeFirst pid l → x ∈ l :=
  fun h => (removeFirst_sublist pid l).mem h

theorem bumpFirst_pos (pid : String) {q : Int} {l : List Item} (hq : 0 < q)
    (hl : ∀ it ∈ l, 0 < it.quantity) :
    ∀ x ∈ bumpFirst pid q l, 0 < x.quantity := by
  induction l with
  | nil => intro x hx; simp [bumpFirst] at hx
  | cons it rest ih =>
    intro x hx
    have h0 : 0 < it.quantity := hl it (List.mem_cons_self it rest)
    have hrest : ∀ y ∈ rest, 0 < y.quantity := fun y hy => hl y (List.mem_cons_of_mem it hy)
    by_cases h : it.id = pid
    · simp [bumpFirst, h] at hx
      rcases hx with rfl | hx
      · exact add_pos h0 hq
      · exact hrest x hx
    · simp [bumpFirst, h] at hx
      rcases hx with rfl | hx
      · exact h0
      · exact ih hrest x hx

theorem setFirst_pos (pid : String) {q : Int} {l : List Item} (hq : 0 < q)
    (hl : ∀ it ∈ l, 0 < it.quantity) :
    ∀ x ∈ setFirst pid q l, 0 < x.quantity := by
  induction l with
  | nil => intro x hx; simp [setFirst] at hx
  | cons it rest ih =>
    intro x hx
    have h0 : 0 < it.quantity := hl it (List.mem_cons_self it rest)
    have hrest : ∀ y ∈ rest, 0 < y.quantity := fun y hy => hl y (List.mem_cons_of_mem it hy)
    by_cases h : it.id = pid
    · simp [setFirst, h] at hx
      rcases hx with rfl | hx
      · exact hq
      · exact hrest x hx
    · simp [setFirst, h] at hx
      rcases hx with rfl | hx
      · exact h0
      · exact ih hrest x hx

theorem removeFirst_id_ne {pid : String} {l : List Item} :
    (l.map Item.id).Nodup → ∀ x ∈ removeFirst pid l, x.id ≠ pid := by
  induction l with
  | nil => intro _ x hx; simp [removeFirst] at hx
  | cons it rest ih =>
    intro hnd x hx
    rw [List.map_cons, List.nodup_cons] at hnd
    by_cases h : it.id = pid
    · simp only [removeFirst, if_pos h] at hx
      intro hxid
      apply hnd.1
      rw [h, ← hxid]
      exact List.mem_map_of_mem Item.id hx
    · simp only [removeFirst, if_neg h, List.mem_cons] at hx
      rcases hx with rfl | hx
      · exact h
      · exact ih hnd.2 x hx

theorem setFirst_quantity {pid : String} {q : Int} {l : List Item} :
    (l.map Item.id).Nodup → ∀ x ∈ setFirst pid q l, x.id = pid → x.quantity = q := by
  induction l with
  | nil => intro _ x hx; simp [setFirst] at hx
  | cons it rest ih =>
    intro hnd x hx hxid
    rw [List.map_cons, List.nodup_cons] at hnd
    by_cases h : it.id = pid
    · simp [setFirst, h] at hx
      rcases hx with rfl | hx
      · rfl
      · exfalso
        apply hnd.1
        rw [h, ← hxid]
        exact List.mem_map_of_mem Item.id hx
    · simp [setFirst, h] at hx
      rcases hx with rfl | hx
      · exact absurd hxid h
      · exact ih hnd.2 x hx hxid

theorem mem_setFirst_of_ne {pid : String} {q : Int} {x : Item} {l : List Item} :
    x ∈ setFirst pid q l → x.id ≠ pid → x ∈ l := by
  induction l with
  | nil => simp [setFirst]
  | cons it rest ih =>
    intro hx hne
    by_cases h : it.id = pid
    · simp [setFirst, h] at hx
      rcases hx with rfl | hx
      · exact absurd rfl hne
      · exact List.mem_cons_of_mem it hx
    · simp [setFirst, h] at hx
      rcases hx with rfl | hx
      · exact List.mem_cons_self x rest
      · exact List.mem_cons_of_mem it (ih hx hne)

theorem addItem_nodup {l : List Item} {p : Product} {q : Int} :
    (l.map Item.id).Nodup → ((addItem l p q).map Item.id).Nodup := by
  intro h
  unfold addItem
  by_cases hh : hasItem l p.id
  · rw [if_pos hh, bumpFirst_map_id]; exact h
  · rw [if_neg hh]
    have hnot : p.id ∉ l.map Item.id := by
      rw [Bool.not_eq_true] at hh
      rw [List.mem_map]
      rintro ⟨y, hy, hyid⟩
      exact (hasItem_eq_false.mp hh y hy) hyid
    rw [List.map_append]
    refine List.Nodup.append h (by simp) ?_
    intro a ha hb
    simp [newItem] at hb
    rw [hb] at ha
    exact hnot ha

theorem updateQuantity_nodup {l : List Item} {pid : String} {q : Int} :
    (l.map Item.id).Nodup → ((updateQuantity l pid q).map Item.id).Nodup := by
  intro h
  unfold updateQuantity
  by_cases hh : hasItem l pid
  · rw [if_pos hh]
    by_cases hq : q ≤ 0
    · rw [if_pos hq]
      exact h.sublist (List.Sublist.map Item.id (removeFirst_sublist pid l))
    · rw [if_neg hq, setFirst_map_id]; exact h
  · rw [if_neg hh]; exact h

theorem removeItem_nodup {l : List Item} {pid : String} :
    (l.map Item.id).Nodup → ((removeItem l pid).map Item.id).Nodup := by
  intro h
  exact h.sublist (List.Sublist.map Item.id (List.filter_sublist l))

theorem reachable_nodup {s : List Item} (h : Reachable s) : (s.map Item.id).Nodup := by
  induction h with
  | empty => simp
  | add p q _ ih => exact addItem_nodup ih
  | update pid q _ ih => exact updateQuantity_nodup ih
  | remove pid _ ih => exact removeItem_nodup ih
  | clear _ _ => simp

theorem bumpFirst_append (pid : String) (q : Int) (pre : List Item) (it : Item)
    (post : List Item) (hpre : ∀ x ∈ pre, x.id ≠ pid) (hit : it.id = pid) :
    bumpFirst pid q (pre ++ it :: post)
      = pre ++ { it with quantity := it.quantity + q } :: post := by
  induction pre with
  | nil => simp [bumpFirst, hit]
  | cons y ys ih =>
    have hy : y.id ≠ pid := hpre y (List.mem_cons_self y ys)
    simp only [List.cons_append, bumpFirst, if_neg hy]
    exact congrArg (List.cons y) (ih (fun x hx => hpre x (List.mem_cons_of_mem y hx)))

theorem hasItem_append_mid (pre : List Item) (it : Item) (post : List Item)
    (hit : it.id = pid) : hasItem (pre ++ it :: post) pid = true := by
  rw [hasItem_eq_true]
  exact ⟨it, by simp, hit⟩

theorem addItem_found (pre : List Item) (it : Item) (post : List Item)
    (p : Product) (q : Int) (hit : it.id = p.id) (hpre : ∀ x ∈ pre, x.id ≠ p.id) :
    addItem (pre ++ it :: post) p q
      = pre ++ { it with quantity := it.quantity + q } :: post := by
  rw [addItem, if_pos (hasItem_append_mid pre it post hit)]
  exact bumpFirst_append p.id q pre it post hpre hit

end Cart

theorem toOptNum_ofOptNum (o : Option ℚ) : Json.toOptNum (Json.ofOptNum o) = some o := by
  cases o <;> rfl

theorem decodeItem_encodeItem (it : Item) : decodeItem (encodeItem it) = some it := by
  obtain ⟨i, n, p, o, sp, im, c, q⟩ := it
  cases sp <;> rfl

theorem decodeItems_encodeItems (l : List Item) : decodeItems (encodeItems l) = some l := by
  induction l with
  | nil => rfl
  | cons it rest ih =>
    have ih' : List.mapM decodeItem (List.map encodeItem rest) = some rest := ih
    show List.mapM decodeItem (List.map encodeItem (it :: rest)) = some (it :: rest)
    rw [List.map_cons, List.mapM_cons, decodeItem_encodeItem, ih']
    rfl

namespace Cart

theorem getItems_saveItems (s : Storage) (l : List Item) :
    getItems (saveItems s l) = l := by
  simp [getItems, saveItems, decodeItems_encodeItems]

theorem getItems_addItemS (s : Storage) (p : Product) (q : Int) :
    getItems (addItemS s p q) = addItem (getItems s) p q :=
  getItems_saveItems s _

theorem getItems_updateQuantityS (s : Storage) (pid : String) (q : Int) :
    getItems (updateQuantityS s pid q) = updateQuantity (getItems s) pid q := by
  by_cases h : hasItem (getItems s) pid
  · simp [updateQuantityS, h, getItems_saveItems]
  · simp [updateQuantityS, updateQuantity, h]

theorem getItems_removeItemS (s : Storage) (pid : String) :
    getItems (removeItemS s pid) = removeItem (getItems s) pid :=
  getItems_saveItems s _

end Cart

theorem apply_lastOrder (op : CartOp) (s : Storage) :
    (op.apply s).lastOrder = s.lastOrder := by
  cases op with
  | add p q => rfl
  | update pid q =>
    show (Cart.updateQuantityS s pid q).lastOrder = s.lastOrder
    unfold Cart.updateQuantityS
    split <;> rfl
  | remove pid => rfl
  | save items => rfl
  | clearCart => rfl

theorem applyOps_lastOrder (ops : List CartOp) :
    ∀ s : Storage, (applyOps ops s).lastOrder = s.lastOrder := by
  induction ops with
  | nil => intro s; rfl
  | cons op rest ih =>
    intro s
    show (applyOps rest (op.apply s)).lastOrder = s.lastOrder
    rw [ih (op.apply s), apply_lastOrder]

theorem getProduct_keyed {cat : Catalog} (hkeys : ∀ e ∈ cat.products, e.2.id = e.1)
    {pid : String} {p : Product} (h : getProduct cat pid = some p) : p.id = pid := by
  unfold getProduct at h
  cases hfind : cat.products.find? (fun e => e.1 = pid) with
  | none => rw [hfind] at h; simp at h
  | some e =>
    rw [hfind] at h
    simp only [Option.map_some'] at h
    have he : e ∈ cat.products := List.mem_of_find?_eq_some hfind
    have hkey : e.1 = pid := by simpa using List.find?_some hfind
    have hp : e.2 = p := Option.some.inj h
    rw [← hp, hkeys e he, hkey]

theorem collectionProducts_map_id {cat : Catalog}
    (hkeys : ∀ e ∈ cat.products, e.2.id = e.1) (ids : List String) :
    (((ids.map (fun i => getProduct cat i)).reduceOption).map Product.id)
      = ids.filter (fun i => (getProduct cat i).isSome) := by
  induction ids with
  | nil => rfl
  | cons i rest ih =>
    cases h : getProduct cat i with
    | none =>
      simp only [List.map_cons, h, List.reduceOption_cons_of_none, List.filter_cons,
        Option.isSome_none]
      exact ih
    | some p =>
      simp only [List.map_cons, h, List.reduceOption_cons_of_some, List.filter_cons,
        Option.isSome_some, List.map_cons]
      rw [getProduct_keyed hkeys h, ih]
      simp

theorem bumpFirst_eq_part000 (pid : String) (q : Int) (l : List Item) :
    Cart.bumpFirst pid q l = Part000.bumpFirst pid q l := by
  induction l with
  | nil => rfl
  | cons it rest ih => simp only [Cart.bumpFirst, Part000.bumpFirst, ih]

theorem removeFirst_eq_part000 (pid : String) (l : List Item) :
    Cart.removeFirst pid l = Part000.removeFirst pid l := by
  induction l with
  | nil => rfl
  | cons it rest ih => simp only [Cart.removeFirst, Part000.removeFirst, ih]

theorem setFirst_eq_part000 (pid : String) (q : Int) (l : List Item) :
    Cart.setFirst pid q l = Part000.setFirst pid q l := by
  induction l with
  | nil => rfl
  | cons it rest ih => simp only [Cart.setFirst, Part000.setFirst, ih]

theorem addItem_eq_part000 (items : List Item) (p : Product) (q : Int) :
    Cart.addItem items p q = Part000.addItem items p q := by
  unfold Cart.addItem Part000.addItem
  rw [bumpFirst_eq_part000]
  rfl

theorem updateQuantity_eq_part000 (items : List Item) (pid : String) (q : Int) :
    Cart.updateQuantity items pid q = Part000.updateQuantity items pid q := by
  unfold Cart.updateQuantity Part000.updateQuantity
  rw [removeFirst_eq_part000, setFirst_eq_part000]
  rfl

/-! ### Claim theorems -/

/-- C1: the claim says the price snapshotted by `addItem` equals the
product's effective price, with `salePrice >= price` treated as "not on
sale" and snapshotted at the base price.  The code instead snapshots
`product.salePrice || product.price`: for a product with base price 68 and
`salePrice` 100 it snapshots 100, while the spec's effective price — and
the module's own `getEffectivePrice`/`isOnSale` helpers, which `addItem`
bypasses — give 68. -/
theorem c1_addItem_snapshot_defensive_case :
    (Cart.addItem [] prodBadSale 1).map Item.price = [100]
      ∧ effectivePriceSpec prodBadSale = 68
      ∧ getEffectivePrice prodBadSale = 68
      ∧ isOnSale prodBadSale = false
      ∧ (100 : ℚ) ≠ 68 := by
  refine ⟨by decide, by decide, by decide, by decide, by decide⟩

/-- C3 counterexample: the claim says no reachable cart state contains a
line-item with quantity ≤ 0, even when `addItem` is called with a
non-positive quantity.  But `addItem` with quantity 0 on an empty cart
pushes a row with quantity 0, so this reachable state violates it. -/
theorem c3_counterexample_zero_quantity_row :
    Reachable (Cart.addItem [] prodHeritage 0)
      ∧ (Cart.addItem [] prodHeritage 0).any (fun it => it.quantity ≤ 0) = true :=
  ⟨Reachable.add prodHeritage 0 Reachable.empty, by decide⟩

/-- C3 (amended): in every cart state reachable when each `addItem` call
passes a positive quantity — `updateQuantity`, `removeItem` and `clear`
may still receive arbitrary arguments — no line-item has quantity ≤ 0.
(`addItem` never crashes on non-positive input, but it neither rejects it
nor coerces it: it stores or accumulates the non-positive quantity.) -/
theorem c3_amended_positive_adds (s : List Item) (h : ReachablePos s) :
    ∀ it ∈ s, 0 < it.quantity := by
  induction h with
  | empty => simp
  | add p q hprev hq ih =>
    rename_i st
    intro x hx
    unfold Cart.addItem at hx
    by_cases hh : Cart.hasItem st p.id
    · rw [if_pos hh] at hx
      exact Cart.bumpFirst_pos p.id hq ih x hx
    · rw [if_neg hh] at hx
      rw [List.mem_append] at hx
      rcases hx with hx | hx
      · exact ih x hx
      · rw [List.mem_singleton] at hx
        rw [hx]
        exact hq
  | update pid q hprev ih =>
    rename_i st
    intro x hx
    unfold Cart.updateQuantity at hx
    by_cases hh : Cart.hasItem st pid
    · rw [if_pos hh] at hx
      by_cases hq : q ≤ 0
      · rw [if_pos hq] at hx
        exact ih x (Cart.mem_removeFirst hx)
      · rw [if_neg hq] at hx
        exact Cart.setFirst_pos pid (lt_of_not_ge hq) ih x hx
    · rw [if_neg hh] at hx
      exact ih x hx
  | remove pid _ ih =>
    intro x hx
    exact ih x (List.mem_of_mem_filter hx)
  | clear _ _ => simp

/-- C3 witness: a concrete positive-quantity add yields a
positive-quantity row. -/
theorem c3_witness_positive_add : 0 < (Cart.newItem prodHeritage 2).quantity :=
  c3_amended_positive_adds (Cart.addItem [] prodHeritage 2)
    (ReachablePos.add prodHeritage 2 ReachablePos.empty (by decide))
    (Cart.newItem prodHeritage 2) (by decide)

/-- C2: `getTotals` returns `subtotal` = Σ unitPrice·quantity, `itemCount`
= Σ quantity, `shipping` 0 on the empty subtotal, 0 from 75 up, else the
flat fee 8.95, and `total` = subtotal + shipping; with the spec's four
numeric examples.  The case split of the claim matches the code's
`subtotal > 0 ? (subtotal >= 75 ? 0 : 8.95) : 0` because the subtotal of
a cart with non-negative prices and quantities is non-negative. -/
theorem c2_getTotals_shipping_rule :
    (∀ items : List Item, (∀ it ∈ items, 0 ≤ it.price ∧ 0 ≤ it.quantity) →
      (Cart.getTotals items).subtotal
          = (items.map (fun it => it.price * (it.quantity : ℚ))).sum
        ∧ (Cart.getTotals items).itemCount = (items.map Item.quantity).sum
        ∧ ((Cart.getTotals items).subtotal = 0 → (Cart.getTotals items).shipping = 0)
        ∧ (75 ≤ (Cart.getTotals items).subtotal → (Cart.getTotals items).shipping = 0)
        ∧ ((Cart.getTotals items).subtotal ≠ 0 → (Cart.getTotals items).subtotal < 75 →
            (Cart.getTotals items).shipping = 895/100)
        ∧ (Cart.getTotals items).total
            = (Cart.getTotals items).subtotal + (Cart.getTotals items).shipping)
    ∧ Cart.getTotals [] = { subtotal := 0, shipping := 0, total := 0, itemCount := 0 }
    ∧ Cart.getTotals [demoItem 50 1]
        = { subtotal := 50, shipping := 895/100, total := 5895/100, itemCount := 1 }
    ∧ (Cart.getTotals [demoItem (7499/100) 1]).subtotal = 7499/100
    ∧ (Cart.getTotals [demoItem (7499/100) 1]).shipping = 895/100
    ∧ Cart.getTotals [demoItem 75 1]
        = { subtotal := 75, shipping := 0, total := 75, itemCount := 1 } := by
  refine ⟨?_, by norm_num [Cart.getTotals], by norm_num [Cart.getTotals, demoItem],
    by norm_num [Cart.getTotals, demoItem], by norm_num [Cart.getTotals, demoItem],
    by norm_num [Cart.getTotals, demoItem]⟩
  intro items hnn
  have hS : (Cart.getTotals items).subtotal
      = (items.map (fun it => it.price * (it.quantity : ℚ))).sum := by
    show items.foldl (fun sum it => sum + it.price * (it.quantity : ℚ)) 0 = _
    rw [Cart.foldl_add_eq (fun it => it.price * (it.quantity : ℚ)) items 0, zero_add]
  have hC : (Cart.getTotals items).itemCount = (items.map Item.quantity).sum := by
    show items.foldl (fun sum it => sum + it.quantity) 0 = _
    rw [Cart.foldl_add_eq Item.quantity items 0, zero_add]
  have hship : (Cart.getTotals items).shipping
      = if 0 < (Cart.getTotals items).subtotal then
          (if 75 ≤ (Cart.getTotals items).subtotal then 0 else 895/100) else 0 := rfl
  have hnonneg : 0 ≤ (Cart.getTotals items).subtotal := by
    rw [hS]
    apply List.sum_nonneg
    intro x hx
    rw [List.mem_map] at hx
    obtain ⟨it, hit, rfl⟩ := hx
    exact mul_nonneg (hnn it hit).1 (by exact_mod_cast (hnn it hit).2)
  refine ⟨hS, hC, ?_, ?_, ?_, rfl⟩
  · intro h0
    rw [hship, h0]
    norm_num
  · intro h75
    rw [hship, if_pos (lt_of_lt_of_le (by norm_num) h75), if_pos h75]
  · intro hne hlt
    rw [hship, if_pos (lt_of_le_of_ne hnonneg (Ne.symm hne)), if_neg (not_le.mpr hlt)]

/-- C2 witness: the general clause applied to the concrete cart with one
unit at price 50: its shipping fee is 8.95. -/
theorem c2_witness_cart_50 : (Cart.getTotals [demoItem 50 1]).shipping = 895/100 :=
  ((c2_getTotals_shipping_rule.1 [demoItem 50 1]
      (by
        intro it hit
        rw [List.mem_singleton] at hit
        subst hit
        exact ⟨by norm_num [demoItem], by norm_num [demoItem]⟩)).2.2.2.2.1
    (by norm_num [Cart.getTotals, demoItem]) (by norm_num [Cart.getTotals, demoItem]))

/-- C4: in every reachable cart, line-item rows are unique per product id;
re-adding an existing product increments the first (unique) matching row
in place — same position, same snapshot `price`/`originalPrice`, no
second row — and the concrete double add of the spec yields a single row
with quantity 5. -/
theorem c4_unique_rows_increment_in_place :
    (∀ s : List Item, Reachable s → (s.map Item.id).Nodup)
    ∧ (∀ (pre post : List Item) (it : Item) (p : Product) (q : Int),
        it.id = p.id → (∀ x ∈ pre, x.id ≠ p.id) →
        Cart.addItem (pre ++ it :: post) p q
          = pre ++ { it with quantity := it.quantity + q } :: post)
    ∧ Cart.addItem (Cart.addItem [] prodWoodland 2) prodWoodland 3
        = [{ Cart.newItem prodWoodland 2 with quantity := 5 }] := by
  refine ⟨fun s h => Cart.reachable_nodup h,
    fun pre post it p q h1 h2 => Cart.addItem_found pre it post p q h1 h2,
    by decide⟩

/-- C4 witness: the in-place increment clause applied to the singleton
cart holding the woodland item at quantity 2, re-adding quantity 3. -/
theorem c4_witness_double_add :
    Cart.addItem [Cart.newItem prodWoodland 2] prodWoodland 3
      = [{ Cart.newItem prodWoodland 2 with quantity := 5 }] :=
  (c4_unique_rows_increment_in_place.2.1 [] [] (Cart.newItem prodWoodland 2)
    prodWoodland 3 rfl (by simp)).trans (by decide)

/-- C5: `updateQuantity` is a no-op for an absent product id; with
quantity ≤ 0 it removes the (unique) matching line-item, so the items read
back afterwards contain no row with that id; with quantity > 0 it sets
that row's quantity to exactly the given value, keeping every id in place
and every other row unchanged.  Stated for carts satisfying the
unique-per-id invariant, which holds in every reachable state (C4). -/
theorem c5_updateQuantity_semantics (items : List Item) (pid : String) (q : Int)
    (hnd : (items.map Item.id).Nodup) :
    ((∀ it ∈ items, it.id ≠ pid) → Cart.updateQuantity items pid q = items)
    ∧ (q ≤ 0 → ∀ it ∈ Cart.updateQuantity items pid q, it.id ≠ pid)
    ∧ (q ≤ 0 → ∀ s : Storage, Cart.getItems s = items →
        ∀ it ∈ Cart.getItems (Cart.updateQuantityS s pid q), it.id ≠ pid)
    ∧ (0 < q →
        (Cart.updateQuantity items pid q).map Item.id = items.map Item.id
        ∧ ∀ it ∈ Cart.updateQuantity items pid q,
            (it.id = pid → it.quantity = q) ∧ (it.id ≠ pid → it ∈ items)) := by
  have hrem : q ≤ 0 → ∀ it ∈ Cart.updateQuantity items pid q, it.id ≠ pid := by
    intro hq it hit
    by_cases hh : Cart.hasItem items pid
    · unfold Cart.updateQuantity at hit
      rw [if_pos hh, if_pos hq] at hit
      exact Cart.removeFirst_id_ne hnd it hit
    · have h0 : Cart.hasItem items pid = false := by simpa using hh
      unfold Cart.updateQuantity at hit
      rw [h0] at hit
      simp only [Bool.false_eq_true, if_false] at hit
      exact Cart.hasItem_eq_false.mp h0 it hit
  refine ⟨?_, hrem, ?_, ?_⟩
  · intro habs
    have h0 : Cart.hasItem items pid = false := Cart.hasItem_eq_false.mpr habs
    unfold Cart.updateQuantity
    rw [h0]
    simp
  · intro hq s hs it hit
    rw [Cart.getItems_updateQuantityS, hs] at hit
    exact hrem hq it hit
  · intro hq
    by_cases hh : Cart.hasItem items pid
    · constructor
      · unfold Cart.updateQuantity
        rw [if_pos hh, if_neg (not_le.mpr hq)]
        exact Cart.setFirst_map_id pid q items
      · intro it hit
        unfold Cart.updateQuantity at hit
        rw [if_pos hh, if_neg (not_le.mpr hq)] at hit
        exact ⟨fun hid => Cart.setFirst_quantity hnd it hit hid,
               fun hid => Cart.mem_setFirst_of_ne hit hid⟩
    · have h0 : Cart.hasItem items pid = false := by simpa using hh
      constructor
      · unfold Cart.updateQuantity
        rw [h0]
        simp
      · intro it hit
        unfold Cart.updateQuantity at hit
        rw [h0] at hit
        simp only [Bool.false_eq_true, if_false] at hit
        exact ⟨fun hid => absurd hid (Cart.hasItem_eq_false.mp h0 it hit),
               fun _ => hit⟩

/-- C5 witness: the no-op clause at a concrete cart and an absent id. -/
theorem c5_witness_absent_id_noop :
    Cart.updateQuantity [Cart.newItem prodHeritage 2] "absent-id" 7
      = [Cart.newItem prodHeritage 2] :=
  (c5_updateQuantity_semantics [Cart.newItem prodHeritage 2] "absent-id" 7
    (by decide)).1 (by decide)

/-- C6: the cart slot and the order slot are independent.  `clear` empties
the cart and leaves the order snapshot untouched; `saveOrder` does not
write the cart slot; and the snapshot read back by `getLastOrder` after
any sequence of later cart mutations still holds the items and totals
current at save time. -/
theorem c6_storage_slots_independent (s : Storage) (n d : String) (ops : List CartOp) :
    Cart.getLastOrder (Cart.clear s) = Cart.getLastOrder s
    ∧ Cart.getItems (Cart.clear s) = []
    ∧ Cart.getItems (Cart.saveOrder s n d).1 = Cart.getItems s
    ∧ ((Cart.saveOrder s n d).1).cart = s.cart
    ∧ Cart.getLastOrder (applyOps ops (Cart.saveOrder s n d).1)
        = some { orderNumber := n, items := Cart.getItems s,
                 totals := Cart.getTotals (Cart.getItems s), date := d } := by
  refine ⟨rfl, rfl, rfl, rfl, ?_⟩
  show (applyOps ops (Cart.saveOrder s n d).1).lastOrder = _
  rw [applyOps_lastOrder]
  rfl

/-- C7: `isOnSale` is a pure predicate holding exactly when `salePrice` is
set (JavaScript-truthy: non-null and nonzero, matching the data-model
invariant that a meaningful `salePrice` is positive) and strictly below
the base price; in particular it is falsy for `salePrice` zero, equal to
the base price, or above it. -/
theorem c7_isOnSale_characterization :
    (∀ p : Product,
      isOnSale p = true ↔ ∃ v, p.salePrice = some v ∧ v ≠ 0 ∧ v < p.price)
    ∧ isOnSale prodWoodland = true
    ∧ isOnSale prodHeritage = false
    ∧ isOnSale prodZeroSale = false
    ∧ isOnSale prodEqSale = false
    ∧ isOnSale prodBadSale = false := by
  refine ⟨?_, by decide, by decide, by decide, by decide, by decide⟩
  intro p
  unfold isOnSale
  cases hsp : p.salePrice with
  | none => simp
  | some v => simp [bne_iff_ne]

/-- C8: `getCollectionProducts` maps the collection's ordered id list
through the product table, silently dropping ids that do not resolve and
keeping the surviving products in order; an unknown collection id yields
the empty sequence.  The demo catalog has a dangling id between two valid
ones. -/
theorem c8_getCollectionProducts_filters_dangling (cat : Catalog) (cid : String) :
    (getCollection cat cid = none → getCollectionProducts cat cid = [])
    ∧ (∀ col, getCollection cat cid = some col →
        (∀ q ∈ getCollectionProducts cat cid,
            ∃ pid ∈ col.products, getProduct cat pid = some q)
        ∧ ((∀ e ∈ cat.products, e.2.id = e.1) →
            (getCollectionProducts cat cid).map Product.id
              = col.products.filter (fun i => (getProduct cat i).isSome)))
    ∧ getCollectionProducts demoCatalog "heirloom-wooden" = [prodHeritage, prodWoodland]
    ∧ getCollectionProducts demoCatalog "unknown-collection" = [] := by
  refine ⟨?_, ?_, rfl, rfl⟩
  · intro h
    unfold getCollectionProducts
    rw [h]
  · intro col h
    constructor
    · intro q hq
      unfold getCollectionProducts at hq
      rw [h, List.reduceOption_mem_iff, List.mem_map] at hq
      obtain ⟨pid, hpid, hgp⟩ := hq
      exact ⟨pid, hpid, hgp⟩
    · intro hkeys
      unfold getCollectionProducts
      rw [h]
      exact collectionProducts_map_id hkeys col.products

/-- C8 witness: on the demo catalog, the surviving products' ids are the
collection's id list with the dangling id dropped, in order. -/
theorem c8_witness_demo_catalog :
    (getCollectionProducts demoCatalog "heirloom-wooden").map Product.id
      = ["heritage-block-set", "woodland-animal-family"] :=
  (((c8_getCollectionProducts_filters_dangling demoCatalog "heirloom-wooden").2.1
      demoHeirloom rfl).2 (by decide)).trans (by decide)

/-- C9: persisting any line-item sequence with `saveItems` and reading it
back with `getItems` (a page reload with storage intact) returns the
identical ordered sequence; the proof runs through the structural
serialization round-trip of every item field. -/
theorem c9_save_getItems_roundtrip (s : Storage) (items : List Item) :
    Cart.getItems (Cart.saveItems s items) = items :=
  Cart.getItems_saveItems s items

/-- C10: the copy of the module in `src/unnamed/part_000` is behaviourally
identical to `src/js/cart.js` at the public interface: every cart
operation returns the same result and leaves the same storage, and every
catalog / render helper computes the same value, for all inputs.  (The
copies differ only in how the catalog data is populated.) -/
theorem c10_part000_copy_equivalent :
    (∀ s : Storage, Cart.getItems s = Part000.getItems s)
    ∧ (∀ (s : Storage) (items : List Item),
        Cart.saveItems s items = Part000.saveItems s items)
    ∧ (∀ (items : List Item) (p : Product) (q : Int),
        Cart.addItem items p q = Part000.addItem items p q)
    ∧ (∀ (s : Storage) (p : Product) (q : Int),
        Cart.addItemS s p q = Part000.addItemS s p q)
    ∧ (∀ (items : List Item) (pid : String) (q : Int),
        Cart.updateQuantity items pid q = Part000.updateQuantity items pid q)
    ∧ (∀ (s : Storage) (pid : String) (q : Int),
        Cart.updateQuantityS s pid q = Part000.updateQuantityS s pid q)
    ∧ (∀ (items : List Item) (pid : String),
        Cart.removeItem items pid = Part000.removeItem items pid)
    ∧ (∀ (s : Storage) (pid : String),
        Cart.removeItemS s pid = Part000.removeItemS s pid)
    ∧ (∀ items : List Item, Cart.getTotals items = Part000.getTotals items)
    ∧ (∀ s : Storage, Cart.clear s = Part000.clear s)
    ∧ (∀ (s : Storage) (n d : String), Cart.saveOrder s n d = Part000.saveOrder s n d)
    ∧ (∀ s : Storage, Cart.getLastOrder s = Part000.getLastOrder s)
    ∧ (∀ (f : ℚ → String) (p : ℚ), Cart.formatPrice f p = Part000.formatPrice f p)
    ∧ (∀ (c : Catalog) (i : String), getProduct c i = Part000.getProduct c i)
    ∧ (∀ (c : Catalog) (i : String), getCollection c i = Part000.getCollection c i)
    ∧ (∀ (c : Catalog) (i : String),
        getCollectionProducts c i = Part000.getCollectionProducts c i)
    ∧ (∀ (o : ℚ) (sp : Option ℚ),
        calculatePercentOff o sp = Part000.calculatePercentOff o sp)
    ∧ (∀ p : Product, isOnSale p = Part000.isOnSale p)
    ∧ (∀ p : Product, getEffectivePrice p = Part000.getEffectivePrice p)
    ∧ (∀ (f : ℚ → String) (p : Product) (b : Bool),
        renderPriceHTML f p b = Part000.renderPriceHTML f p b)
    ∧ (∀ (f : ℚ → String) (p : Product) (b : String),
        renderProductCard f p b = Part000.renderProductCard f p b) :=
  ⟨fun _ => rfl, fun _ _ => rfl, addItem_eq_part000,
   fun s p q => by
     unfold Cart.addItemS Part000.addItemS
     rw [addItem_eq_part000]
     rfl,
   updateQuantity_eq_part000,
   fun s pid q => by
     unfold Cart.updateQuantityS Part000.updateQuantityS
     rw [updateQuantity_eq_part000]
     rfl,
   fun _ _ => rfl, fun _ _ => rfl,
   fun _ => rfl, fun _ => rfl, fun _ _ _ => rfl, fun _ => rfl,
   fun _ _ => rfl, fun _ _ => rfl, fun _ _ => rfl, fun _ _ => rfl,
   fun _ _ => rfl, fun _ => rfl, fun _ => rfl, fun _ _ _ => rfl,
   fun _ _ _ => rfl⟩
